import Mathlib

/-!
# Verification of the lab-integrator-destock core against its specification

Shallow embedding, in Lean 4, of the core components of the
`lab-integrator-destock` repository (an HL7/MLLP laboratory-analyzer
integration service written in Python), together with theorems settling the
frozen claims C1–C10 about its specification.

Conventions of the embedding:
* Python byte strings are `List Nat` (one `Nat` per byte).
* Python `str` is Lean `String`; `None`-able values are `Option _`.
* Python exceptions are `Except String _` (the payload is the message);
  functions that the source code lets raise are embedded as `Except`-valued.
* SQLite tables are Lean lists of row structures; `SELECT ... ORDER BY ...`
  is embedded with `List.insertionSort` (a stable sort, like SQLite's) and
  `LIMIT n` with `List.take n`.
* Out-of-process collaborators (HTTP API, filesystem trace writer, loaded
  JSON/YAML configuration) are parameters of the embedded functions: the
  Python code injects them as constructor arguments or reads them once at
  start-up, and their internal behaviour is outside the repository.
-/

/-! ## Frame Splitter (`src/lab_core/connectors/tcp.py`)

`split_messages` extracts MLLP frames `\x0b(.*?)\x1c\r` from a byte buffer
with `re.findall` and falls back to the whole buffer when no frame is found.
`mllpGo` embeds the left-to-right scan of `re.findall` with that pattern:
outside a frame it looks for the start byte `0x0b`; inside a frame the
non-greedy `(.*?)` stops at the first `0x1c 0x0d` pair; an unterminated
start byte yields no match (and no later match can exist either, since a
later match would need its own `0x1c 0x0d` terminator). -/

def mllpGo : List Nat → Option (List Nat) → List (List Nat)
  | [], _ => []
  | c :: rest, none => if c = 0x0b then mllpGo rest (some []) else mllpGo rest none
  | [_], some _ => []
  | c :: d :: rest, some acc =>
    if c = 0x1c ∧ d = 0x0d then acc.reverse :: mllpGo rest none
    else mllpGo (d :: rest) (some (c :: acc))

/-- `split_messages` from `lab_core/connectors/tcp.py`: MLLP frames when any
are present, otherwise the whole payload as a single message. -/
def split_messages (payload : List Nat) : List (List Nat) :=
  let msgs := mllpGo payload none
  if msgs.isEmpty then [payload] else msgs

/-- One well-formed MLLP frame around a payload: `0x0b ⟨payload⟩ 0x1c 0x0d`. -/
def mllpFrame (p : List Nat) : List Nat :=
  0x0b :: (p ++ [0x1c, 0x0d])

/-- A payload free of the MLLP framing bytes. -/
def mllpClean (p : List Nat) : Prop :=
  (0x0b : Nat) ∉ p ∧ (0x1c : Nat) ∉ p

instance (p : List Nat) : Decidable (mllpClean p) := by
  unfold mllpClean; infer_instance

/-! ## Python string primitives

Lean's built-in `String.toUpper`, `String.trim`, `String.splitOn` and the
`String` order are opaque to kernel reduction, so the Python string
operations the source uses are embedded directly over the character list
(`String.data`). ASCII behaviour matches Python's; the repository's data
(HL7 segment names, analyte codes, ISO dates) is ASCII. -/

/-- Python's default whitespace set for `str.strip` and the regex `\s`
(ASCII part): space, tab, newline, carriage return, vertical tab, form
feed. -/
def isPySpace (c : Char) : Bool :=
  c = ' ' || c = '\t' || c = '\n' || c = '\r' || c.toNat = 0x0b || c.toNat = 0x0c

/-- Python `str.upper()` (ASCII). -/
def pyUpper (s : String) : String :=
  ⟨s.data.map Char.toUpper⟩

/-- Python `str.lower()` (ASCII). -/
def pyLower (s : String) : String :=
  ⟨s.data.map Char.toLower⟩

/-- Python `str.strip()`: drop leading and trailing whitespace. -/
def pyStrip (s : String) : String :=
  ⟨((s.data.dropWhile isPySpace).reverse.dropWhile isPySpace).reverse⟩

/-- Character-list core of Python `str.split(sep)` for a one-character
separator: split at every occurrence, keeping empty parts. -/
def pySplitAux (sep : Char) : List Char → List Char → List String
  | [], acc => [⟨acc.reverse⟩]
  | c :: rest, acc =>
    if c = sep then ⟨acc.reverse⟩ :: pySplitAux sep rest []
    else pySplitAux sep rest (c :: acc)

/-- Python `str.split(sep)` for a one-character separator. -/
def pySplit (s : String) (sep : Char) : List String :=
  pySplitAux sep s.data []

/-- Whether `sep` occurs in `s` (Python `sep in s` for a single char). -/
def pyContainsChar (s : String) (sep : Char) : Bool :=
  s.data.contains sep

/-- Boolean prefix test on character lists. -/
def isPrefixB : List Char → List Char → Bool
  | [], _ => true
  | _ :: _, [] => false
  | c :: cs, d :: ds => c = d && isPrefixB cs ds

/-- Boolean contiguous-substring test on character lists. -/
def isInfixB (n : List Char) : List Char → Bool
  | [] => n.isEmpty
  | d :: ds => isPrefixB n (d :: ds) || isInfixB n ds

/-- Python's substring operator `needle in hay`. -/
def pyIn (needle hay : String) : Bool :=
  isInfixB needle.data hay.data

/-- Strict byte-wise lexicographic order on character lists (how SQLite
compares TEXT values, and how Python compares `str`, for ASCII data). -/
def lexLt : List Char → List Char → Bool
  | [], [] => false
  | [], _ :: _ => true
  | _ :: _, [] => false
  | c :: cs, d :: ds =>
    if c.toNat < d.toNat then true
    else if d.toNat < c.toNat then false
    else lexLt cs ds

/-- Strict text order on strings (byte-wise, see `lexLt`). -/
def strLt (a b : String) : Bool :=
  lexLt a.data b.data

/-- Python `int(s)` for a plain digit string, `None` on anything else
(Python also tolerates surrounding whitespace and a sign, which the
configuration paths this models never carry). -/
def pyToNat? (s : String) : Option Nat :=
  if s.data ≠ [] ∧ s.data.all Char.isDigit then
    some (s.data.foldl (fun a c => a * 10 + (c.toNat - 48)) 0)
  else none

/-! ## HL7 Field Parser (`src/lab_core/hl7_parser.py`)

`get_field(segs, seg_name, field_idx, comp_idx)` walks the pipe-split
segments, skipping segments whose first token differs from `seg_name`
(case-insensitively). For ordinary segments the real list index equals the
1-based HL7 field index; for `MSH` the index is shifted by one (`MSH`'s
first delimiter is the field separator itself), and `MSH-1` (and below)
yields no value (`continue`). `field_idx` is embedded as `Nat`: the HL7
field indices the configuration language produces are non-negative. -/

/-- Python's `s.strip() or None`: the trimmed string, or `None` when it is
empty. -/
def stripOrNone (s : String) : Option String :=
  let t := pyStrip s
  if t = "" then none else some t

/-- The in-range part of `get_field`'s loop body, at an already-resolved
real index (`if real_idx >= len(seg): continue`, then the optional
component split on `^`). -/
def getFieldAt (seg : List String) (realIdx : Nat) (compIdx : Option Nat) :
    Option (Option String) :=
  match seg.get? realIdx with
  | none => none
  | some val =>
    match compIdx with
    | some c =>
      let comps := pySplit val '^'
      if 1 ≤ c ∧ c ≤ comps.length then some (stripOrNone (comps.getD (c - 1) ""))
      else none
    | none => some (stripOrNone val)

/-- One iteration of `get_field`'s segment loop: `none` means `continue`,
`some r` means `return r` with value `r`. `snUpper` is the already-uppercased
segment name (`seg_name = seg_name.upper()` at the top of `get_field`). -/
def getFieldStep (snUpper : String) (fieldIdx : Nat) (compIdx : Option Nat)
    (seg : List String) : Option (Option String) :=
  if seg = [] then none
  else if pyUpper (seg.headD "") ≠ snUpper then none
  else if snUpper = "MSH" then
    if fieldIdx < 2 then none else getFieldAt seg (fieldIdx - 1) compIdx
  else getFieldAt seg fieldIdx compIdx

/-- `get_field` from `lab_core/hl7_parser.py`: first segment that matches and
is in range wins; falling off the loop returns `None`. -/
def get_field (segs : List (List String)) (segName : String) (fieldIdx : Nat)
    (compIdx : Option Nat) : Option String :=
  (segs.findSome? (getFieldStep (pyUpper segName) fieldIdx compIdx)).getD none

/-! ## Code Mapper

Two lookup paths exist in the source:
* `DefaultMappingRepo.resolve_client_code` in `src/lab_core/result_flow.py`
  (the one the Dispatch Cycle injects), normalizing with
  `re.sub(r"\s+", " ", s.strip().lower())`;
* `lookup_client_code` in `src/lab_core/utils/mapping_json.py`, normalizing
  by uppercasing and dropping non-alphanumerics, over a prebuilt alias
  index.
The mapping document (`configs/mapping.json`) is embedded structurally:
`analyzers` is an assoc list (JSON object keys are unique) of blocks with
`aliases` and a `map` from analyte key to `client_code`/`client_title`. -/

/-- One `map` entry of an analyzer block (`client_code`, optional
`client_title`); a JSON entry may omit either key. -/
structure MapEntry where
  client_code : Option String
  client_title : Option String
deriving DecidableEq, Repr

/-- One analyzer block: declared aliases plus the analyte map (an assoc
list, preserving JSON object order). -/
structure AnalyzerBlock where
  aliases : List String
  map : List (String × MapEntry)
deriving DecidableEq, Repr

/-- The mapping document: analyzer name → block. -/
structure MappingDoc where
  analyzers : List (String × AnalyzerBlock)
deriving DecidableEq, Repr

/-- Collapse every run of whitespace to a single space (the regex
`re.sub(r"\s+", " ", ·)`); the flag records whether the previous character
was whitespace. -/
def collapseWsAux : Bool → List Char → List Char
  | _, [] => []
  | prevSpace, c :: rest =>
    if isPySpace c then
      if prevSpace then collapseWsAux true rest
      else ' ' :: collapseWsAux true rest
    else c :: collapseWsAux false rest

/-- `DefaultMappingRepo._norm`: `re.sub(r"\s+", " ", s.strip().lower())`. -/
def rfNorm (s : String) : String :=
  ⟨collapseWsAux false (pyLower (pyStrip s)).data⟩

/-- Python `str(x)` of an optional string, `str(None) = "None"` (the source
does `str(info.get("client_code"))` without a presence check). -/
def pyStrOfOpt : Option String → String
  | none => "None"
  | some s => s

/-- First pass of the analyzer search in `resolve_client_code`:
`az_norm == key_norm or az_norm in aliases or key_norm in az_norm` (the
last disjunct is substring containment). -/
def rfSelectPass1 (an : List (String × AnalyzerBlock)) (az : String) :
    Option AnalyzerBlock :=
  (an.find? (fun kb =>
    let kn := rfNorm kb.1
    let als := (kb.2.aliases.map rfNorm)
    az == kn || als.contains az || pyIn kn az)).map (·.2)

/-- Second pass ("coincidencias parciales"):
`az_norm in key_norm or any(az_norm in a or a in az_norm for a in aliases)`. -/
def rfSelectPass2 (an : List (String × AnalyzerBlock)) (az : String) :
    Option AnalyzerBlock :=
  (an.find? (fun kb =>
    let kn := rfNorm kb.1
    let als := (kb.2.aliases.map rfNorm)
    pyIn az kn || als.any (fun a => pyIn az a || pyIn a az))).map (·.2)

/-- Analyzer-block selection of `resolve_client_code`: first pass, then the
partial-match pass. -/
def rfSelectAnalyzer (an : List (String × AnalyzerBlock)) (az : String) :
    Option AnalyzerBlock :=
  match rfSelectPass1 an az with
  | some b => some b
  | none => rfSelectPass2 an az

/-- `DefaultMappingRepo.resolve_client_code` from
`src/lab_core/result_flow.py`: guard empty inputs, select the analyzer
block (name, alias, or substring containment), then the first analyte key
whose normalization equals the normalized `obx_text` (exact, the partial
text comparison is commented out in the source). -/
def resolve_client_code (doc : MappingDoc) (analyzer obx_text : String) :
    Option String :=
  if analyzer = "" || obx_text = "" then none
  else
    let az := rfNorm analyzer
    let tx := rfNorm obx_text
    match rfSelectAnalyzer doc.analyzers az with
    | none => none
    | some blk =>
      match blk.map.find? (fun ti => rfNorm ti.1 == tx) with
      | none => none
      | some ti => some (pyStrOfOpt ti.2.client_code)

/-- `mapping_json._norm`: uppercase, keep only alphanumerics. -/
def mjNorm (s : String) : String :=
  ⟨(pyUpper s).data.filter Char.isAlphanum⟩

/-- Python dict assignment `d[k] = v` on an assoc list: overwrite the
existing binding or append a new one. -/
def dictSet (d : List (String × String)) (k v : String) :
    List (String × String) :=
  if d.any (·.1 == k) then d.map (fun kv => if kv.1 == k then (k, v) else kv)
  else d ++ [(k, v)]

/-- Python `d.get(k)` on an assoc list. -/
def dictGet? (d : List (String × String)) (k : String) : Option String :=
  (d.find? (·.1 == k)).map (·.2)

/-- `mapping_json._build_alias_index`: normalized canonical name and every
normalized alias each point at the canonical analyzer name (later analyzers
overwrite colliding keys, like Python dict assignment). -/
def build_alias_index (analyzers : List (String × AnalyzerBlock)) :
    List (String × String) :=
  analyzers.foldl (fun idx cb =>
    let idx1 := dictSet idx (mjNorm cb.1) cb.1
    cb.2.aliases.foldl (fun i al => dictSet i (mjNorm al) cb.1) idx1) []

/-- `mapping_json.lookup_client_code`: resolve the canonical analyzer only
through the exact normalized alias index, then the analyte entry by exact
uppercased key or by normalized-key equality; every miss returns
`(None, None)`. -/
def lookup_client_code (doc : MappingDoc) (analyzer_name test_code : String) :
    Option String × Option String :=
  if analyzer_name = "" || test_code = "" then (none, none)
  else
    match dictGet? (build_alias_index doc.analyzers) (mjNorm analyzer_name) with
    | none => (none, none)
    | some canon =>
      if canon = "" then (none, none)
      else
        match (doc.analyzers.find? (·.1 == canon)).map (·.2) with
        | none => (none, none)
        | some blk =>
          let entry? : Option MapEntry :=
            match blk.map.find? (fun ti => ti.1 == pyUpper test_code) with
            | some ti => some ti.2
            | none =>
              (blk.map.find? (fun ti => mjNorm ti.1 == mjNorm test_code)).map (fun ti => ti.2)
          match entry? with
          | none => (none, none)
          | some e => (e.client_code, e.client_title)

/-- Concrete mapping document for exercising the Code Mapper: one analyzer
`FS114` with no aliases mapping analyte key `PLCC` to client code `X`. -/
def exDocC4 : MappingDoc :=
  { analyzers :=
      [("FS114",
        { aliases := [],
          map := [("PLCC", { client_code := some "X", client_title := none })] })] }

/-! ## Exam Resolver (`src/lab_core/results_store.py`)

`find_exam_id_by_keys` tries three SQL queries in order over the locally
replicated `exams` (and `patients`) tables:
1. `WHERE tubo_muestra = ? ORDER BY id DESC LIMIT 1`;
2. `WHERE paciente_doc = ? AND protocolo_codigo = ?
    ORDER BY fecha DESC, hora DESC, id DESC LIMIT 1`;
3. `JOIN patients ON p.documento = e.paciente_doc
    WHERE UPPER(p.nombre) = UPPER(?) AND e.protocolo_codigo = ?
    ORDER BY fecha DESC, hora DESC, id DESC LIMIT 1`;
returning `None` when none matches. SQL semantics embedded: a `=`
comparison against a NULL column is false; `ORDER BY x DESC` puts NULLs
last (NULL is smallest in SQLite); text compares byte-wise. -/

/-- One row of the `exams` table (the columns this flow reads). -/
structure SExam where
  id : Nat
  paciente_doc : Option String
  protocolo_codigo : Option String
  tubo_muestra : Option String
  fecha : Option String
  hora : Option String
deriving DecidableEq, Repr

/-- One row of the `patients` table (the columns this flow reads). -/
structure SPatient where
  documento : Option String
  nombre : Option String
deriving DecidableEq, Repr

/-- The order-cache database: `exams` plus `patients`. -/
structure OrdersDb where
  exams : List SExam
  patients : List SPatient
deriving Repr

/-- Python truthiness of an optional string (`if x:`): present and
non-empty. -/
def pyTruthy : Option String → Bool
  | none => false
  | some s => s ≠ ""

/-- A nullable TEXT column as a sort key: SQLite's NULL is smaller than any
text; text compares byte-wise. -/
def optKey : Option String → WithBot (List Char)
  | none => ⊥
  | some s => (s.data : WithBot (List Char))

/-- Composite sort key for `ORDER BY fecha DESC, hora DESC, id DESC`
(lexicographic on `(fecha, hora, id)`; descending = larger key first). -/
abbrev DateKey := Lex (WithBot (List Char) × Lex (WithBot (List Char) × Nat))

/-- The `(fecha, hora, id)` key of an exam row. -/
def dateKey (r : SExam) : DateKey :=
  toLex (optKey r.fecha, toLex (optKey r.hora, r.id))

/-- `a` sorts no later than `b` under `ORDER BY fecha DESC, hora DESC,
id DESC`. -/
def examDateDesc (a b : SExam) : Prop :=
  dateKey b ≤ dateKey a

instance : DecidableRel examDateDesc :=
  fun a b => (inferInstance : LinearOrder DateKey).decidableLE (dateKey b) (dateKey a)

instance : IsTotal SExam examDateDesc :=
  ⟨fun a b => le_total (dateKey b) (dateKey a)⟩

instance : IsTrans SExam examDateDesc :=
  ⟨fun _ _ _ h1 h2 => le_trans h2 h1⟩

/-- `a` sorts no later than `b` under `ORDER BY id DESC`. -/
def examIdDesc (a b : SExam) : Prop :=
  b.id ≤ a.id

instance : DecidableRel examIdDesc :=
  fun a b => inferInstanceAs (Decidable (b.id ≤ a.id))

instance : IsTotal SExam examIdDesc :=
  ⟨fun a b => le_total b.id a.id⟩

instance : IsTrans SExam examIdDesc :=
  ⟨fun _ _ _ h1 h2 => le_trans h2 h1⟩

/-- Rows matching strategy 1's `WHERE tubo_muestra = ?`. -/
def tubeMatches (db : OrdersDb) (t : Option String) : List SExam :=
  db.exams.filter (fun r => r.tubo_muestra == some (t.getD ""))

/-- Rows matching strategy 2's `WHERE paciente_doc = ? AND
protocolo_codigo = ?`. -/
def docProtoMatches (db : OrdersDb) (d p : Option String) : List SExam :=
  db.exams.filter (fun r =>
    r.paciente_doc == some (d.getD "") && r.protocolo_codigo == some (p.getD ""))

/-- The `JOIN patients ON p.documento = e.paciente_doc` condition: both
sides non-NULL and equal. -/
def joinDocEq (pt : SPatient) (e : SExam) : Bool :=
  match pt.documento, e.paciente_doc with
  | some a, some b => a == b
  | _, _ => false

/-- `UPPER(p.nombre) = UPPER(?)`: case-insensitive name match (false when
the stored name is NULL). -/
def upperNameMatch (pt : SPatient) (nm : String) : Bool :=
  match pt.nombre with
  | some x => pyUpper x == pyUpper nm
  | none => false

/-- Rows matching strategy 3's join and `WHERE` clause. -/
def nameProtoMatches (db : OrdersDb) (nm p : Option String) : List SExam :=
  db.exams.filter (fun e =>
    e.protocolo_codigo == some (p.getD "") &&
    db.patients.any (fun pt => joinDocEq pt e && upperNameMatch pt (nm.getD "")))

/-- Strategy 1 of `find_exam_id_by_keys` (`if tubo_muestra:` guard, then
`ORDER BY id DESC LIMIT 1`). -/
def q1 (db : OrdersDb) (t : Option String) : Option SExam :=
  if pyTruthy t then ((tubeMatches db t).insertionSort examIdDesc).head? else none

/-- Strategy 2 (`if paciente_doc and protocolo_codigo:` guard, then
`ORDER BY fecha DESC, hora DESC, id DESC LIMIT 1`). -/
def q2 (db : OrdersDb) (d p : Option String) : Option SExam :=
  if pyTruthy d && pyTruthy p then
    ((docProtoMatches db d p).insertionSort examDateDesc).head?
  else none

/-- Strategy 3 (`if nombre_paciente and protocolo_codigo:` guard, join with
`patients`, then `ORDER BY fecha DESC, hora DESC, id DESC LIMIT 1`). -/
def q3 (db : OrdersDb) (nm p : Option String) : Option SExam :=
  if pyTruthy nm && pyTruthy p then
    ((nameProtoMatches db nm p).insertionSort examDateDesc).head?
  else none

/-- `find_exam_id_by_keys` from `src/lab_core/results_store.py`: the three
strategies in order, first match wins, `None` when all miss. -/
def find_exam_id_by_keys (db : OrdersDb)
    (paciente_doc protocolo_codigo tubo_muestra nombre_paciente : Option String) :
    Option Nat :=
  match q1 db tubo_muestra with
  | some r => some r.id
  | none =>
    match q2 db paciente_doc protocolo_codigo with
    | some r => some r.id
    | none =>
      match q3 db nombre_paciente protocolo_codigo with
      | some r => some r.id
      | none => none

/-- Concrete database for exercising the Exam Resolver: two exam rows with
the same tube code; the row with the higher id (2) carries the strictly
older date. -/
def exDbC7 : OrdersDb :=
  { exams :=
      [{ id := 1, paciente_doc := none, protocolo_codigo := none,
         tubo_muestra := some "T", fecha := some "2025-12-31", hora := none },
       { id := 2, paciente_doc := none, protocolo_codigo := none,
         tubo_muestra := some "T", fecha := some "2020-01-01", hora := none }],
    patients := [] }

/-! ## Result Sender (`src/lab_core/result_flow.py`)

`ResultSender.process_obx` orchestrates: context resolution (mapping +
exam lookup), XML build, per-analyte HTTP send, and the optional exam
close gated by `obx_record["ultimo_del_examen"]`. The injected
collaborators (mapping repo, exam repo, XML builder, API client, trace
writer) are a parameter record of `Except`-valued functions: `Except.error
m` stands for that call raising an exception with message `m`. The
logger is append-only (embedded as the `logs` list of the outcome). -/

/-- `ErrorCode` from `result_flow.py`. -/
inductive ErrorCode where
  | MAPPING_NOT_FOUND
  | EXAM_NOT_FOUND
  | ORDER_DATE_MISSING
  | XML_BUILD_ERROR
  | API_SEND_ERROR
  | UNKNOWN
deriving DecidableEq, Repr

/-- The string value of an `ErrorCode` member (it is a `str` Enum). -/
def codeStr : ErrorCode → String
  | .MAPPING_NOT_FOUND => "MAPPING_NOT_FOUND"
  | .EXAM_NOT_FOUND => "EXAM_NOT_FOUND"
  | .ORDER_DATE_MISSING => "ORDER_DATE_MISSING"
  | .XML_BUILD_ERROR => "XML_BUILD_ERROR"
  | .API_SEND_ERROR => "API_SEND_ERROR"
  | .UNKNOWN => "UNKNOWN"

/-- A Python exception inside the flow: a `FlowError` carrying an
`ErrorCode`, or any other exception (message only). -/
inductive PyErr where
  | flow (code : ErrorCode) (msg : String)
  | exc (msg : String)
deriving DecidableEq, Repr

/-- The `(code, message)` pair an exception is converted to by
`process_obx`'s handlers (`except FlowError` / `except Exception`). -/
def errPair : PyErr → ErrorCode × String
  | .flow code msg => (code, msg)
  | .exc msg => (ErrorCode.UNKNOWN, "Error no controlado: " ++ msg)

/-- The `obx_record` dict: the keys `process_obx` and the dispatcher read;
a missing key is `none`. -/
structure ObxRecord where
  analyzer : Option String := none
  code : Option String := none
  text : Option String := none
  value_text : Option String := none
  tubo_muestra : Option String := none
  barcode : Option String := none
  paciente_id : Option String := none
  value : Option String := none
  unit : Option String := none
  ref_range : Option String := none
  timestamp : Option String := none
  ultimo_del_examen : Bool := false
deriving DecidableEq, Repr

/-- The dict returned by `ExamRepo.get_exam_by_barcode`. -/
structure ExamDict where
  id_examen : Option Int
  order_date : Option String
  paciente_id : Option String
deriving DecidableEq, Repr

/-- `Context` from `result_flow.py`. -/
structure Context where
  analyzer : String
  obx_text : String
  tubo_muestra : String
  client_code : String
  id_examen : Int
  order_date : String
  paciente_id : Option String
deriving DecidableEq, Repr

/-- The raw API response dict (`status` is always "ok" on success). -/
structure ApiResp where
  raw : String
  url : String
deriving DecidableEq, Repr

/-- `SendResultOutcome` from `result_flow.py`. -/
structure SendResultOutcome where
  ok : Bool
  id_examen : Option Int
  client_code : Option String
  order_date : Option String
  sent_count : Nat
  errors : List (ErrorCode × String)
  logs : List String
deriving DecidableEq, Repr

/-- The injected collaborators of `ResultSender` (mapping repo, exam repo,
XML builder, API client, optional trace writer); each call may raise. A
disabled tracer is the constantly-`ok` function. -/
structure Collaborators where
  resolve_client_code : String → String → Except String (Option String)
  get_exam_by_barcode : String → Except String (Option ExamDict)
  build_result_xml : Context → ObxRecord → Except String String
  save_xml : Context → String → Except String Unit
  send_result : Context → ObxRecord → String → Except String ApiResp
  save_http_send : Context → ApiResp → Except String Unit
  close_exam : Context → Except String ApiResp
  save_http_close : Context → ApiResp → Except String Unit

/-- Python `a or b` for an optional string against a default (falsy =
missing or empty). -/
def orElseStr (a : Option String) (b : String) : String :=
  match a with
  | some s => if s = "" then b else s
  | none => b

/-- `ResultSender._resolve_context`: requires non-empty analyzer, analyte
text and tube code; resolves the client code and the exam; prefers the
exam's patient document over the record's own patient id. `Except.error`
carries the raised exception (`FlowError` or unexpected). -/
def resolveContext (c : Collaborators) (obx : ObxRecord) : Except PyErr Context :=
  let analyzer := pyStrip (orElseStr obx.analyzer "")
  let obx_text := pyStrip (orElseStr obx.text (orElseStr obx.value_text ""))
  let tubo := pyStrip (orElseStr obx.tubo_muestra (orElseStr obx.barcode ""))
  let obx_pid : Option String :=
    match obx.paciente_id with
    | some s => if s = "" then none else some (pyStrip s)
    | none => none
  if analyzer = "" then
    .error (.flow .MAPPING_NOT_FOUND "Falta 'analyzer' en OBX.")
  else if obx_text = "" then
    .error (.flow .MAPPING_NOT_FOUND "OBX.text vacío; no se puede mapear.")
  else if tubo = "" then
    .error (.flow .EXAM_NOT_FOUND "Falta 'tubo_muestra' (código de barras) en el OBX.")
  else
    match c.resolve_client_code analyzer obx_text with
    | .error m => .error (.exc m)
    | .ok cc? =>
      let cc := orElseStr cc? ""
      if cc = "" then
        .error (.flow .MAPPING_NOT_FOUND
          ("No hay mapping para analyzer='" ++ analyzer ++ "' y obx_text='" ++ obx_text ++ "'."))
      else
        match c.get_exam_by_barcode tubo with
        | .error m => .error (.exc m)
        | .ok none =>
          .error (.flow .EXAM_NOT_FOUND
            ("No se encontró examen en 'exams' para tubo_muestra='" ++ tubo ++ "'."))
        | .ok (some exam) =>
          match exam.id_examen with
          | none => .error (.flow .EXAM_NOT_FOUND "El examen encontrado no tiene 'id_examen'.")
          | some ide =>
            if (exam.order_date.getD "") = "" then
              .error (.flow .ORDER_DATE_MISSING "El examen encontrado no tiene 'order_date'.")
            else
              let pid : Option String :=
                match exam.paciente_id with
                | some ep => if ep = "" then obx_pid else some ep
                | none => obx_pid
              .ok { analyzer := analyzer, obx_text := obx_text, tubo_muestra := tubo,
                    client_code := cc, id_examen := ide,
                    order_date := exam.order_date.getD "", paciente_id := pid }

/-- `ResultSender._build_xml`: builder plus optional trace write, any
exception wrapped as `XML_BUILD_ERROR`. -/
def buildXmlStep (c : Collaborators) (ctx : Context) (obx : ObxRecord) :
    Except PyErr String :=
  match c.build_result_xml ctx obx with
  | .error m => .error (.flow .XML_BUILD_ERROR ("Error construyendo XML: " ++ m))
  | .ok xml =>
    match c.save_xml ctx xml with
    | .error m => .error (.flow .XML_BUILD_ERROR ("Error construyendo XML: " ++ m))
    | .ok _ => .ok xml

/-- `ResultSender._send_one`: one `send_result` call plus optional trace
write, any exception wrapped as `API_SEND_ERROR`. -/
def sendOneStep (c : Collaborators) (ctx : Context) (obx : ObxRecord)
    (xml : String) : Except PyErr Unit :=
  match c.send_result ctx obx xml with
  | .error m => .error (.flow .API_SEND_ERROR ("Error enviando resultado: " ++ m))
  | .ok resp =>
    match c.save_http_send ctx resp with
    | .error m => .error (.flow .API_SEND_ERROR ("Error enviando resultado: " ++ m))
    | .ok _ => .ok ()

/-- `ResultSender._close_exam`: one `close_exam` call plus optional trace
write, any exception wrapped as `API_SEND_ERROR`. -/
def closeExamStep (c : Collaborators) (ctx : Context) : Except PyErr Unit :=
  match c.close_exam ctx with
  | .error m => .error (.flow .API_SEND_ERROR ("Error cerrando examen: " ++ m))
  | .ok resp =>
    match c.save_http_close ctx resp with
    | .error m => .error (.flow .API_SEND_ERROR ("Error cerrando examen: " ++ m))
    | .ok _ => .ok ()

/-- The `Contexto → ...` log line of `process_obx`. -/
def ctxLogLine (ctx : Context) : String :=
  "Contexto → id_examen=" ++ toString ctx.id_examen ++ ", client_code=" ++
    ctx.client_code ++ ", fecha=" ++ ctx.order_date

/-- The `[{code}] {msg}` log line of `_log_err`. -/
def errLogLine (code : ErrorCode) (msg : String) : String :=
  "[" ++ codeStr code ++ "] " ++ msg

/-- The failure outcome `process_obx` builds after its handlers ran
(`ctx` fields when the context had been resolved). -/
def failOutcome (ctx? : Option Context) (sc : Nat) (e : ErrorCode × String)
    (logs : List String) : SendResultOutcome :=
  { ok := false,
    id_examen := ctx?.map (fun ctx => ctx.id_examen),
    client_code := ctx?.map (fun ctx => ctx.client_code),
    order_date := ctx?.map (fun ctx => ctx.order_date),
    sent_count := sc, errors := [e], logs := logs }

/-- How many `send_result` and `close_exam` calls one `process_obx` run
issued on the API client. -/
structure CallCounts where
  send : Nat
  close : Nat
deriving DecidableEq, Repr

/-- `ResultSender.process_obx`, instrumented with the API call counts:
resolve context → build XML → send → (close when `ultimo_del_examen`),
converting every raised exception into a `(code, message)` pair in a
structured outcome. -/
def processObxT (c : Collaborators) (obx : ObxRecord) :
    SendResultOutcome × CallCounts :=
  match resolveContext c obx with
  | .error e =>
    let p := errPair e
    (failOutcome none 0 p [errLogLine p.1 p.2], ⟨0, 0⟩)
  | .ok ctx =>
    let logs1 := [ctxLogLine ctx]
    match buildXmlStep c ctx obx with
    | .error e =>
      let p := errPair e
      (failOutcome (some ctx) 0 p (logs1 ++ [errLogLine p.1 p.2]), ⟨0, 0⟩)
    | .ok xml =>
      let logs2 := logs1 ++ ["XML construido."]
      match sendOneStep c ctx obx xml with
      | .error e =>
        let p := errPair e
        (failOutcome (some ctx) 0 p (logs2 ++ [errLogLine p.1 p.2]), ⟨1, 0⟩)
      | .ok _ =>
        let logs3 := logs2 ++ ["Resultado enviado (analito)."]
        if obx.ultimo_del_examen then
          match closeExamStep c ctx with
          | .error e =>
            let p := errPair e
            (failOutcome (some ctx) 1 p (logs3 ++ [errLogLine p.1 p.2]), ⟨1, 1⟩)
          | .ok _ =>
            ({ ok := true, id_examen := some ctx.id_examen,
               client_code := some ctx.client_code,
               order_date := some ctx.order_date, sent_count := 1, errors := [],
               logs := logs3 ++ ["Examen cerrado (actualizar_examenlab_fecha)."] },
             ⟨1, 1⟩)
        else
          ({ ok := true, id_examen := some ctx.id_examen,
             client_code := some ctx.client_code,
             order_date := some ctx.order_date, sent_count := 1, errors := [],
             logs := logs3 }, ⟨1, 0⟩)

/-- `ResultSender.process_obx` (the outcome the caller sees). -/
def process_obx (c : Collaborators) (obx : ObxRecord) : SendResultOutcome :=
  (processObxT c obx).1

/-- Collaborators whose every call succeeds with fixed values (a
call-counting fake in the tests' spirit). -/
def cOk : Collaborators :=
  { resolve_client_code := fun _ _ => .ok (some "CC"),
    get_exam_by_barcode := fun _ =>
      .ok (some { id_examen := some 7, order_date := some "2025-01-02",
                  paciente_id := some "D1" }),
    build_result_xml := fun _ _ => .ok "<Resultado/>",
    save_xml := fun _ _ => .ok (),
    send_result := fun _ _ _ => .ok { raw := "1", url := "u" },
    save_http_send := fun _ _ => .ok (),
    close_exam := fun _ => .ok { raw := "1", url := "u" },
    save_http_close := fun _ _ => .ok () }

/-! ## Dispatch Cycle (`src/lab_core/dispatcher.py`, with `src/lab_core/db.py`)

`dispatch_cycle` selects pending analyte rows, builds an `obx_record` per
row, delegates to `ResultSender.process_obx`, and persists the outcome via
the `mark_obx_*` helpers. The sender's collaborators are assembled from
configuration (`DefaultMappingRepo` over `configs/mapping.json`,
`DefaultExamRepo` over the SQLite file, `DefaultXmlBuilder`,
`DefaultApiClient` over HTTP, `FileTraceWriter`); the cycle logic below is
parameterized by the assembled `Collaborators`, and the default
implementations that live in this repository are embedded separately
(`resolve_client_code`, `get_exam_by_barcode`, `build_result_xml`).
`now` stands for `datetime.now()` timestamps. -/

/-- One `hl7_results` row (the columns the dispatcher reads). -/
structure HeaderRow where
  id : Nat
  analyzer_name : Option String
  patient_id : Option String
  exam_date : Option String
deriving DecidableEq, Repr

/-- One `hl7_obx_results` row (detail plus `export_*` bookkeeping). -/
structure ObxDbRow where
  id : Nat
  result_id : Nat
  code : Option String
  text : Option String
  value : Option String
  units : Option String
  ref_range : Option String
  export_status : Option String
  export_error : Option String
  export_path : Option String
  exported_at : Option String
  export_attempts : Nat
deriving DecidableEq, Repr

/-- The HL7-results database the dispatcher works on. -/
structure DispatchDb where
  hl7_results : List HeaderRow
  hl7_obx_results : List ObxDbRow
deriving DecidableEq, Repr

/-- The `WHERE` clause of `_select_pending_obx`:
`COALESCE(export_status,'') NOT IN ('SENT','SKIPPED', 'ERROR')`. -/
def pendingStatus (s : Option String) : Bool :=
  let v := s.getD ""
  !(v == "SENT" || v == "SKIPPED" || v == "ERROR")

/-- `a` sorts no later than `b` under `ORDER BY o.id` (ascending). -/
def obxIdAsc (a b : ObxDbRow) : Prop :=
  a.id ≤ b.id

instance : DecidableRel obxIdAsc :=
  fun a b => inferInstanceAs (Decidable (a.id ≤ b.id))

instance : IsTotal ObxDbRow obxIdAsc :=
  ⟨fun a b => le_total a.id b.id⟩

instance : IsTrans ObxDbRow obxIdAsc :=
  ⟨fun _ _ _ h1 h2 => le_trans h1 h2⟩

/-- `_select_pending_obx` from `src/lab_core/dispatcher.py`:
`SELECT o.id AS obx_id, o.result_id FROM hl7_obx_results o WHERE
COALESCE(o.export_status,'') NOT IN ('SENT','SKIPPED', 'ERROR') ORDER BY
o.id LIMIT ?`. -/
def selectPendingObx (db : DispatchDb) (limit : Nat) : List (Nat × Nat) :=
  ((((db.hl7_obx_results.filter (fun o => pendingStatus o.export_status)).insertionSort
        obxIdAsc).take limit).map (fun o => (o.id, o.result_id)))

/-- `_normalize_units`: empty for missing units, otherwise unchanged. -/
def normalizeUnits (u : Option String) : String :=
  orElseStr u ""

/-- `_build_obx_record_from_db` from `src/lab_core/dispatcher.py`: header
fields (`analyzer_name`, `patient_id` as the tube code) plus the analyte's
own fields; `paciente_id` is deliberately not set (the sender takes the
document from `exams`), and `ultimo_del_examen` is always `False`.
`Except.error` is the `RuntimeError` raised when either row is missing. -/
def buildObxRecordFromDb (db : DispatchDb) (result_id obx_id : Nat)
    (now : String) : Except String ObxRecord :=
  match db.hl7_results.find? (fun h => h.id == result_id) with
  | none => .error ("No se encontró hl7_results.id=" ++ toString result_id)
  | some header =>
    match db.hl7_obx_results.find? (fun o => o.id == obx_id) with
    | none => .error ("No se encontró hl7_obx_results.id=" ++ toString obx_id)
    | some obx =>
      .ok { analyzer := some (pyStrip (orElseStr header.analyzer_name "")),
            code := some (orElseStr obx.code ""),
            text := some (orElseStr obx.text ""),
            value := obx.value,
            unit := some (normalizeUnits obx.units),
            ref_range := some (orElseStr obx.ref_range ""),
            tubo_muestra := some (pyStrip (orElseStr header.patient_id "")),
            ultimo_del_examen := false,
            timestamp := some now }

/-- `UPDATE hl7_obx_results ... WHERE id=?`: rewrite the matching rows. -/
def updateObxRow (db : DispatchDb) (obx_id : Nat) (f : ObxDbRow → ObxDbRow) :
    DispatchDb :=
  { db with hl7_obx_results :=
      db.hl7_obx_results.map (fun o => if o.id == obx_id then f o else o) }

/-- `mark_obx_exported` from `src/lab_core/db.py`: status `SENT`, error
cleared, path and timestamp recorded, attempt counter bumped. -/
def mark_obx_exported (db : DispatchDb) (obx_id : Nat) (path now : String) :
    DispatchDb :=
  updateObxRow db obx_id (fun o =>
    { o with export_status := some "SENT", export_error := none,
             export_path := some path, exported_at := some now,
             export_attempts := o.export_attempts + 1 })

/-- `mark_obx_error` from `src/lab_core/db.py`: status `ERROR`, message
truncated to 500 characters, attempt counter bumped. -/
def mark_obx_error (db : DispatchDb) (obx_id : Nat) (err : String) : DispatchDb :=
  updateObxRow db obx_id (fun o =>
    { o with export_status := some "ERROR", export_error := some ⟨err.data.take 500⟩,
             export_attempts := o.export_attempts + 1 })

/-- Modelled from the spec: `mark_obx_mapping_not_found` is imported and
called by `dispatcher.py` but not defined in `src/lab_core/db.py` (or
anywhere under `src/`); per the spec the driver "marks MAPPING_NOT_FOUND
distinctly from a generic ERROR", and `export_attempts` increments on every
terminal attempt, so the modelled update sets `export_status` to
`MAPPING_NOT_FOUND` and bumps the attempt counter. -/
def mark_obx_mapping_not_found (db : DispatchDb) (obx_id : Nat) : DispatchDb :=
  updateObxRow db obx_id (fun o =>
    { o with export_status := some "MAPPING_NOT_FOUND",
             export_attempts := o.export_attempts + 1 })

/-- `by_result.setdefault(result_id, []).append(obx_id)` over an assoc
list (Python dict preserves first-seen key order). -/
def addToGroups (gs : List (Nat × List Nat)) (rid oid : Nat) :
    List (Nat × List Nat) :=
  if gs.any (fun g => g.1 == rid) then
    gs.map (fun g => if g.1 == rid then (g.1, g.2 ++ [oid]) else g)
  else gs ++ [(rid, [oid])]

/-- Group the pending `(obx_id, result_id)` pairs by `result_id`. -/
def groupByResult (pend : List (Nat × Nat)) : List (Nat × List Nat) :=
  pend.foldl (fun gs p => addToGroups gs p.2 p.1) []

/-- `"; ".join(f"{code}: {text}" ...) or "UNKNOWN_ERROR"`. -/
def joinedErrMsg (errors : List (ErrorCode × String)) : String :=
  let j := match errors.map (fun e => codeStr e.1 ++ ": " ++ e.2) with
    | [] => ""
    | x :: rest => rest.foldl (fun a p => a ++ "; " ++ p) x
  if j = "" then "UNKNOWN_ERROR" else j

/-- The running state of one dispatch cycle: the database plus the
`sent`/`err` counters, instrumented with API call counts. -/
structure DAcc where
  db : DispatchDb
  sent : Nat
  err : Nat
  sendCalls : Nat
  closeCalls : Nat
deriving Repr

/-- One iteration of `dispatch_cycle`'s inner loop (its `try`/`except`
included): build the record (a failure is the caught exception path, marked
`ERROR` with an `EXCEPTION:` message), run `process_obx`, then mark `SENT`
on success, `MAPPING_NOT_FOUND` when the outcome carries that error code,
otherwise `ERROR` with the joined messages; `conn.commit()` after each
row. -/
def dispatchRow (c : Collaborators) (now : String) (acc : DAcc)
    (result_id obx_id : Nat) : DAcc :=
  match buildObxRecordFromDb acc.db result_id obx_id now with
  | .error m =>
    { acc with db := mark_obx_error acc.db obx_id ("EXCEPTION: " ++ m),
               err := acc.err + 1 }
  | .ok rec =>
    let pr := processObxT c rec
    let acc1 := { acc with sendCalls := acc.sendCalls + pr.2.send,
                           closeCalls := acc.closeCalls + pr.2.close }
    if pr.1.ok then
      { acc1 with db := mark_obx_exported acc1.db obx_id "" now,
                  sent := acc1.sent + 1 }
    else if pr.1.errors.any (fun e => e.1 == ErrorCode.MAPPING_NOT_FOUND) then
      { acc1 with db := mark_obx_mapping_not_found acc1.db obx_id,
                  err := acc1.err + 1 }
    else
      { acc1 with db := mark_obx_error acc1.db obx_id (joinedErrMsg pr.1.errors),
                  err := acc1.err + 1 }

/-- What one `dispatch_cycle` run returns (the `picked`/`sent`/`error`
counts) together with the final database and the API call counts. -/
structure CycleResult where
  db : DispatchDb
  picked : Nat
  sent : Nat
  error : Nat
  sendCalls : Nat
  closeCalls : Nat
deriving Repr

/-- `dispatch_cycle` from `src/lab_core/dispatcher.py`: select a bounded
batch of pending rows; an empty batch is a no-op returning all-zero counts;
otherwise group by `result_id` (insertion order) and process each row. -/
def dispatch_cycle (c : Collaborators) (db0 : DispatchDb) (batch_size : Nat)
    (now : String) : CycleResult :=
  let pend := selectPendingObx db0 batch_size
  if pend.isEmpty then
    { db := db0, picked := 0, sent := 0, error := 0, sendCalls := 0, closeCalls := 0 }
  else
    let acc := (groupByResult pend).foldl
      (fun a g => g.2.foldl (fun a2 oid => dispatchRow c now a2 g.1 oid) a)
      { db := db0, sent := 0, err := 0, sendCalls := 0, closeCalls := 0 }
    { db := acc.db, picked := pend.length, sent := acc.sent, error := acc.err,
      sendCalls := acc.sendCalls, closeCalls := acc.closeCalls }

/-- Concrete database for exercising the selection query: a single analyte
row whose `export_status` is `ERROR`. -/
def exDbC1 : DispatchDb :=
  { hl7_results := [{ id := 1, analyzer_name := some "A", patient_id := some "T",
                      exam_date := none }],
    hl7_obx_results :=
      [{ id := 1, result_id := 1, code := some "WBC", text := some "WBC",
         value := some "8.5", units := some "u", ref_range := some "",
         export_status := some "ERROR", export_error := some "boom",
         export_path := none, exported_at := none, export_attempts := 1 }] }

/-- Concrete database for exercising the dispatch driver: one header row
and one pending analyte row. -/
def exDbC2 : DispatchDb :=
  { hl7_results := [{ id := 1, analyzer_name := some "A", patient_id := some "T",
                      exam_date := none }],
    hl7_obx_results :=
      [{ id := 1, result_id := 1, code := some "WBC", text := some "WBC",
         value := some "8.5", units := some "u", ref_range := some "",
         export_status := none, export_error := none,
         export_path := none, exported_at := none, export_attempts := 0 }] }

/-- Collaborators identical to `cOk` except that the mapping lookup finds
nothing (the unmapped-analyte scenario). -/
def cMnf : Collaborators :=
  { cOk with resolve_client_code := fun _ _ => .ok none }

/-- Initial per-cycle accumulator over `exDbC2`. -/
def accC5 : DAcc :=
  { db := exDbC2, sent := 0, err := 0, sendCalls := 0, closeCalls := 0 }

/-! ## Result Ingestor (`src/lab_core/result_ingest.py`, with the
configurable parser's OBX collection from `src/lab_core/hl7_parser.py`)

`ingest_result_file` parses one HL7 file (fixed-shape reader + configurable
parser) and calls `save_result_record(record, parsed_obx=obx_list)`, which
inserts one `hl7_results` header row plus one `hl7_obx_results` row per
parsed OBX, committing once at the end; a raise before the single
`conn.commit()` leaves the open transaction uncommitted, and SQLite rolls
it back when the connection goes away, so a failed file persists nothing. -/

/-- Character-list core of Python `str.splitlines()`: terminators `\r\n`,
`\r`, `\n`; no trailing empty line after a final terminator. -/
def pySplitlinesAux : List Char → List Char → List String
  | [], cur => if cur.isEmpty then [] else [⟨cur.reverse⟩]
  | '\r' :: '\n' :: rest, cur => ⟨cur.reverse⟩ :: pySplitlinesAux rest []
  | '\r' :: rest, cur => ⟨cur.reverse⟩ :: pySplitlinesAux rest []
  | '\n' :: rest, cur => ⟨cur.reverse⟩ :: pySplitlinesAux rest []
  | c :: rest, cur => pySplitlinesAux rest (c :: cur)

/-- Python `str.splitlines()` (ASCII terminators). -/
def pySplitlines (s : String) : List String :=
  pySplitlinesAux s.data []

/-- `split_segments` from `src/lab_core/hl7_parser.py`: strip each line,
drop blank lines, split each kept line on `|`. -/
def split_segments (hl7_text : String) : List (List String) :=
  (((pySplitlines hl7_text).map pyStrip).filter (fun l => l ≠ "")).map
    (fun l => pySplit l '|')

/-- Python `s.split(sep, 1)` destructured as `(head, rest)`; `none` when the
separator is absent (the `ValueError` of unpacking, caught by the caller). -/
def splitFirstAux (sep : Char) : List Char → List Char → Option (String × String)
  | [], _ => none
  | c :: rest, acc =>
    if c = sep then some (⟨acc.reverse⟩, ⟨rest⟩)
    else splitFirstAux sep rest (c :: acc)

/-- `path.split(sep, 1)` with exactly one split. -/
def splitFirst (s : String) (sep : Char) : Option (String × String) :=
  splitFirstAux sep s.data []

/-- `p_local` from `parse_hl7_configurable`: evaluate a path
`OBX-<field>[.<comp>]` against ONE OBX segment only (any non-OBX path, parse
failure or out-of-range access yields `None`). -/
def p_local (seg : List String) (path : String) : Option String :=
  match splitFirst path '-' with
  | none => none
  | some (segName, rest) =>
    if pyUpper segName ≠ "OBX" then none
    else
      let fc : Option (Nat × Option Nat) :=
        if pyContainsChar rest '.' then
          match splitFirst rest '.' with
          | none => none
          | some (fs, cs) =>
            match pyToNat? fs, pyToNat? cs with
            | some f, some cv => some (f, some cv)
            | _, _ => none
        else
          match pyToNat? rest with
          | some f => some (f, none)
          | none => none
      match fc with
      | none => none
      | some (fIdx, cIdx) =>
        let val := if fIdx < seg.length then seg.getD fIdx "" else ""
        let val2 :=
          match cIdx with
          | some cv =>
            let comps := pySplit val '^'
            if 1 ≤ cv ∧ cv ≤ comps.length then comps.getD (cv - 1) "" else ""
          | none => val
        stripOrNone val2

/-- `take` from the OBX loop: first path yielding a non-empty value wins. -/
def takeFirst (seg : List String) (paths : List String) : Option String :=
  paths.findSome? (p_local seg)

/-- The OBX-loop guard: `if not seg or seg[0].upper() != "OBX": continue`. -/
def isObxSeg (seg : List String) : Bool :=
  !seg.isEmpty && pyUpper (seg.headD "") == "OBX"

/-- The path lists of the profile's `extract.obx` specification. -/
structure ObxSpec where
  code : List String := []
  text : List String := []
  value : List String := []
  units : List String := []
  ref_range : List String := []
  status : List String := []
  whenPaths : List String := []
deriving Repr

/-- One parsed OBX record appended by the configurable parser's loop. -/
structure ParsedObx where
  code : Option String
  text : Option String
  value : Option String
  units : Option String
  ref_range : Option String
  status : Option String
  when_dt : Option String
  raw : String
deriving DecidableEq, Repr

/-- Python `"|".join(parts)`. -/
def pyJoinPipe (parts : List String) : String :=
  match parts with
  | [] => ""
  | x :: rest => rest.foldl (fun a pt => a ++ "|" ++ pt) x

/-- The body of the OBX loop of `parse_hl7_configurable` for one OBX
segment: per-field first-non-empty extraction scoped to this segment,
`when` inherited from the exam timestamp, optional upper-casing of the
text. -/
def buildObxRec (spec : ObxSpec) (textUpper : Bool) (examWhen : Option String)
    (seg : List String) : ParsedObx :=
  let text0 := takeFirst seg spec.text
  { code := takeFirst seg spec.code,
    text :=
      match text0 with
      | some t => if textUpper then some (pyUpper t) else some t
      | none => none,
    value := takeFirst seg spec.value,
    units := takeFirst seg spec.units,
    ref_range := takeFirst seg spec.ref_range,
    status := takeFirst seg spec.status,
    when_dt :=
      match takeFirst seg spec.whenPaths with
      | some w => some w
      | none => examWhen,
    raw := pyJoinPipe seg }

/-- The `obx_list` of `parse_hl7_configurable`: one record per OBX segment
of the message. -/
def parse_obx_list (spec : ObxSpec) (textUpper : Bool) (examWhen : Option String)
    (hl7_text : String) : List ParsedObx :=
  ((split_segments hl7_text).filter isObxSeg).map (buildObxRec spec textUpper examWhen)

/-- The header dict `ingest_result_file` assembles (a missing key is
`none`; `save_result_record` applies the defaults). -/
structure IngData where
  received_at : Option String := none
  analyzer_name : Option String := none
  raw_hl7 : Option String := none
  patient_id : Option String := none
  patient_name : Option String := none
  birth_date : Option String := none
  sex : Option String := none
  order_number : Option String := none
  exam_code : Option String := none
  exam_title : Option String := none
  exam_date : Option String := none
  exam_time : Option String := none
  source_file : Option String := none
  status : Option String := none
deriving DecidableEq, Repr

/-- The persisted `hl7_results` payload after the "Blindaje de claves"
defaults of `save_result_record`. -/
structure IngHeader where
  received_at : String
  analyzer_name : String
  raw_hl7 : String
  patient_id : String
  patient_name : String
  birth_date : String
  sex : String
  order_number : String
  exam_code : String
  exam_title : String
  exam_date : String
  exam_time : String
  source_file : String
  status : String
deriving DecidableEq, Repr

/-- The key-defaulting prologue of `save_result_record`
(`analyzer_name` defaults to `UNKNOWN`, `status` to `RAW`, the rest to
empty). -/
def blindaje (d : IngData) : IngHeader :=
  { received_at := d.received_at.getD "",
    analyzer_name := d.analyzer_name.getD "UNKNOWN",
    raw_hl7 := d.raw_hl7.getD "",
    patient_id := d.patient_id.getD "",
    patient_name := d.patient_name.getD "",
    birth_date := d.birth_date.getD "",
    sex := d.sex.getD "",
    order_number := d.order_number.getD "",
    exam_code := d.exam_code.getD "",
    exam_title := d.exam_title.getD "",
    exam_date := d.exam_date.getD "",
    exam_time := d.exam_time.getD "",
    source_file := d.source_file.getD "",
    status := d.status.getD "RAW" }

/-- One persisted `hl7_obx_results` row of the ingestion schema. -/
structure IngObxRow where
  id : Nat
  result_id : Nat
  obx_id : String
  code : String
  text : String
  value : String
  units : String
  ref_range : String
  flags : String
  obs_dt : String
deriving DecidableEq, Repr

/-- The ingestion database: `hl7_results` (id, payload) plus
`hl7_obx_results`, with the AUTOINCREMENT cursors. -/
structure IngDb where
  hl7_results : List (Nat × IngHeader)
  hl7_obx_results : List IngObxRow
  next_result_id : Nat
  next_obx_row_id : Nat
deriving DecidableEq, Repr

/-- One OBX insert of `save_result_record`: cleaned fields plus the derived
stable `obx_id` (`CODE-<code>`, or the positional `OBX-<idx>` fallback). -/
def ingObxRowOf (result_id rowId idx : Nat) (obx : ParsedObx) : IngObxRow :=
  let code := pyStrip (orElseStr obx.code "")
  { id := rowId, result_id := result_id,
    obx_id := if code ≠ "" then "CODE-" ++ code else "OBX-" ++ toString idx,
    code := code,
    text := pyStrip (orElseStr obx.text ""),
    value := pyStrip (orElseStr obx.value ""),
    units := pyStrip (orElseStr obx.units ""),
    ref_range := pyStrip (orElseStr obx.ref_range ""),
    flags := pyStrip (orElseStr obx.status ""),
    obs_dt := pyStrip (orElseStr obx.when_dt "") }

/-- `save_result_record` from `src/lab_core/result_ingest.py` (the
committed effect): append one header row with a fresh id, then one OBX row
per parsed record, each referencing that header. -/
def save_result_record (db : IngDb) (data : IngData) (parsed_obx : List ParsedObx) :
    IngDb :=
  let rid := db.next_result_id
  { hl7_results := db.hl7_results ++ [(rid, blindaje data)],
    hl7_obx_results := db.hl7_obx_results ++
      parsed_obx.enum.map (fun p => ingObxRowOf rid (db.next_obx_row_id + p.1) p.1 p.2),
    next_result_id := rid + 1,
    next_obx_row_id := db.next_obx_row_id + parsed_obx.length }

/-- `save_result_record` with its transactional failure semantics: step `k`
is the k-th `INSERT` (0 the header, `i + 1` the i-th OBX row) raising
before the single `conn.commit()`; the uncommitted transaction is rolled
back when the connection is dropped, so the caller's database is unchanged
on error. -/
def save_result_record_tx (db : IngDb) (data : IngData)
    (parsed_obx : List ParsedObx) (failAt : Option Nat) : Except String IngDb :=
  match failAt with
  | some k =>
    if k ≤ parsed_obx.length then .error "sqlite3.Error"
    else .ok (save_result_record db data parsed_obx)
  | none => .ok (save_result_record db data parsed_obx)

/-- A synthetic HL7 message with exactly two OBX segments. -/
def msgC9 : String :=
  "MSH|^~\\&|APP\rPID|1\rOBX|1|NM|WBC\rOBX|2|NM|RBC"

/-- An empty ingestion database (AUTOINCREMENT cursors at 1). -/
def ingDb0 : IngDb :=
  { hl7_results := [], hl7_obx_results := [], next_result_id := 1, next_obx_row_id := 1 }
theorem mllpGo_cons_some (c : Nat) (rest acc : List Nat) (h : c ≠ 0x1c) :
    mllpGo (c :: rest) (some acc) = mllpGo rest (some (c :: acc)) := by
  cases rest with
  | nil => simp [mllpGo]
  | cons d rest' =>
    have hne : ¬(c = 0x1c ∧ d = 0x0d) := fun hand => h hand.1
    simp only [mllpGo, if_neg hne]

theorem mllpGo_interior (p : List Nat) (rest acc : List Nat)
    (hp : (0x1c : Nat) ∉ p) :
    mllpGo (p ++ 0x1c :: 0x0d :: rest) (some acc)
      = (acc.reverse ++ p) :: mllpGo rest none := by
  induction p generalizing acc with
  | nil => simp [mllpGo]
  | cons c p' ih =>
    have hc : c ≠ 0x1c := fun hcontr => hp (hcontr ▸ List.mem_cons_self c p')
    have hp' : (0x1c : Nat) ∉ p' := fun hmem => hp (List.mem_cons_of_mem _ hmem)
    rw [List.cons_append, mllpGo_cons_some c _ acc hc, ih _ hp']
    simp

theorem mllpGo_flatten (ps : List (List Nat)) (h : ∀ p ∈ ps, mllpClean p) :
    mllpGo ((ps.map mllpFrame).flatten) none = ps := by
  induction ps with
  | nil => simp [mllpGo]
  | cons p ps' ih =>
    have hp := h p (List.mem_cons_self p ps')
    have hrest : ∀ q ∈ ps', mllpClean q := fun q hq => h q (List.mem_cons_of_mem _ hq)
    show mllpGo (mllpFrame p ++ (ps'.map mllpFrame).flatten) none = p :: ps'
    rw [mllpFrame, List.cons_append]
    rw [show mllpGo (0x0b :: (p ++ [0x1c, 0x0d] ++ (ps'.map mllpFrame).flatten)) none
          = mllpGo (p ++ [0x1c, 0x0d] ++ (ps'.map mllpFrame).flatten) (some []) by
      simp [mllpGo]]
    rw [List.append_assoc]
    rw [show ([28, 13] : List Nat) ++ (ps'.map mllpFrame).flatten
          = 0x1c :: 0x0d :: (ps'.map mllpFrame).flatten from rfl]
    rw [mllpGo_interior p _ [] hp.2, ih hrest]
    simp

theorem mllpGo_no_start (b : List Nat) (h : (0x0b : Nat) ∉ b) :
    mllpGo b none = [] := by
  induction b with
  | nil => simp [mllpGo]
  | cons c rest ih =>
    have hc : c ≠ 0x0b := fun hcontr => h (hcontr ▸ List.mem_cons_self c rest)
    have hrest : (0x0b : Nat) ∉ rest := fun hmem => h (List.mem_cons_of_mem _ hmem)
    rw [show mllpGo (c :: rest) none = mllpGo rest none by simp [mllpGo, hc]]
    exact ih hrest

/-- C6: for every buffer made of N well-formed MLLP frames concatenated, the
Frame Splitter returns exactly the N payloads, in order, with no framing byte
in any payload (the payloads are framing-byte-free by hypothesis and are
returned verbatim); and for every buffer with no frame markers it returns
exactly one payload equal to the whole buffer. -/
theorem c6_frame_splitter (ps : List (List Nat)) (b : List Nat)
    (hne : ps ≠ []) (hclean : ∀ p ∈ ps, mllpClean p)
    (hnomark : (0x0b : Nat) ∉ b) :
    split_messages ((ps.map mllpFrame).flatten) = ps ∧ split_messages b = [b] := by
  constructor
  · rw [split_messages]
    simp only [mllpGo_flatten ps hclean]
    simp [hne]
  · rw [split_messages]
    simp only [mllpGo_no_start b hnomark]
    rfl

/-- Witness for C6 at a concrete input: two frames with payloads "MSH" and
"A" (as bytes), and a marker-free buffer `[0x4d, 0x53]`. -/
theorem c6_frame_splitter_witness :
    ([[0x4d, 0x53, 0x48], [0x41]] : List (List Nat)) ≠ [] ∧
    (∀ p ∈ ([[0x4d, 0x53, 0x48], [0x41]] : List (List Nat)), mllpClean p) ∧
    (0x0b : Nat) ∉ [0x4d, 0x53] ∧
    split_messages ((([[0x4d, 0x53, 0x48], [0x41]] : List (List Nat)).map mllpFrame).flatten)
      = [[0x4d, 0x53, 0x48], [0x41]] ∧
    split_messages [0x4d, 0x53] = [[0x4d, 0x53]] :=
  ⟨by decide, by decide, by decide,
    (c6_frame_splitter [[0x4d, 0x53, 0x48], [0x41]] [0x4d, 0x53]
      (by decide) (by decide) (by decide)).1,
    (c6_frame_splitter [[0x4d, 0x53, 0x48], [0x41]] [0x4d, 0x53]
      (by decide) (by decide) (by decide)).2⟩


theorem getFieldAt_in_range (seg : List String) (n : Nat) (hn : n < seg.length) :
    getFieldAt seg n none = some (stripOrNone (seg.getD n "")) := by
  rw [getFieldAt, List.get?_eq_get hn, List.getD_eq_getElem seg "" hn]
  rfl

theorem getFieldStep_ordinary (seg : List String) (snUpper : String) (n : Nat)
    (hne : seg ≠ []) (hname : pyUpper (seg.headD "") = snUpper)
    (hnot : snUpper ≠ "MSH") (hn : n < seg.length) :
    getFieldStep snUpper n none seg = some (stripOrNone (seg.getD n "")) := by
  rw [getFieldStep, if_neg hne, if_neg (not_ne_iff.mpr hname), if_neg hnot,
    getFieldAt_in_range seg n hn]

theorem getFieldStep_msh (seg : List String) (n : Nat)
    (hne : seg ≠ []) (hname : pyUpper (seg.headD "") = "MSH")
    (h2 : 2 ≤ n) (hn : n - 1 < seg.length) :
    getFieldStep "MSH" n none seg = some (stripOrNone (seg.getD (n - 1) "")) := by
  rw [getFieldStep, if_neg hne, if_neg (not_ne_iff.mpr hname), if_pos rfl,
    if_neg (by omega : ¬n < 2), getFieldAt_in_range seg (n - 1) hn]

theorem getFieldStep_msh_one (seg : List String) :
    getFieldStep "MSH" 1 none seg = none := by
  rw [getFieldStep]
  by_cases hne : seg = []
  · rw [if_pos hne]
  · rw [if_neg hne]
    by_cases hname : pyUpper (seg.headD "") ≠ "MSH"
    · rw [if_pos hname]
    · rw [if_neg hname, if_pos rfl, if_pos (by omega : (1 : Nat) < 2)]

/-- C8: in the HL7 Field Parser's path evaluation over a message holding the
matching segment, an ordinary segment (PID/OBR/OBX, i.e. anything but MSH)
at field index `n` reads split position `n` of the pipe-split segment; the
header segment MSH at index `n ≥ 2` reads split position `n - 1`; and MSH
index 1 (the field separator itself) yields no value. -/
theorem c8_get_field_indexing (seg : List String) (name : String) (n : Nat) :
    (seg ≠ [] → pyUpper (seg.headD "") = pyUpper name → pyUpper name ≠ "MSH" →
      n < seg.length →
      get_field [seg] name n none = stripOrNone (seg.getD n "")) ∧
    (seg ≠ [] → pyUpper (seg.headD "") = "MSH" → 2 ≤ n → n - 1 < seg.length →
      get_field [seg] "MSH" n none = stripOrNone (seg.getD (n - 1) "")) ∧
    get_field [seg] "MSH" 1 none = none := by
  refine ⟨fun hne hname hnot hn => ?_, fun hne hname h2 hn => ?_, ?_⟩
  · rw [get_field, List.findSome?]
    rw [getFieldStep_ordinary seg (pyUpper name) n hne hname hnot hn]
    rfl
  · rw [get_field, show pyUpper "MSH" = "MSH" by decide, List.findSome?]
    rw [getFieldStep_msh seg n hne hname h2 hn]
    rfl
  · rw [get_field, show pyUpper "MSH" = "MSH" by decide, List.findSome?]
    rw [getFieldStep_msh_one seg]
    rfl

/-- Witness for C8 at a concrete segment: `PID|A|B` field 2 reads "B";
`MSH|^~\&|APP` field 3 reads split position 2 ("APP"); `MSH-1` is `none`. -/
theorem c8_get_field_indexing_witness :
    get_field [["PID", "A", "B"]] "PID" 2 none = stripOrNone (["PID", "A", "B"].getD 2 "") ∧
    get_field [["MSH", "^~\\&", "APP"]] "MSH" 3 none
      = stripOrNone (["MSH", "^~\\&", "APP"].getD 2 "") ∧
    get_field [["MSH", "^~\\&", "APP"]] "MSH" 1 none = none :=
  ⟨(c8_get_field_indexing ["PID", "A", "B"] "PID" 2).1 (by decide) (by decide)
      (by decide) (by decide),
   (c8_get_field_indexing ["MSH", "^~\\&", "APP"] "MSH" 3).2.1 (by decide) (by decide)
      (by decide) (by decide),
   (c8_get_field_indexing ["MSH", "^~\\&", "APP"] "MSH" 1).2.2⟩

/-- Counterexample to C4: the analyzer name `SUPERFS114` is not an exact
normalized match of the canonical name `FS114` (nor of any alias — there
are none), yet `DefaultMappingRepo.resolve_client_code` resolves it to
client code `X` through substring containment (`key_norm in az_norm`), so
"only by exact normalized match ... never by substring containment" is
false on the code. -/
theorem c4_code_mapper_counterexample :
    resolve_client_code exDocC4 "SUPERFS114" "PLCC" = some "X" ∧
    rfNorm "SUPERFS114" ≠ rfNorm "FS114" ∧
    (∀ al ∈ (exDocC4.analyzers.headD ("", ⟨[], []⟩)).2.aliases,
      rfNorm "SUPERFS114" ≠ rfNorm al) := by
  refine ⟨by decide, by decide, ?_⟩
  intro al hal
  simp [exDocC4] at hal

/-- C4 amended: `DefaultMappingRepo.resolve_client_code` resolves the
analyzer entry by exact normalized name, exact normalized alias, or
substring containment (first pass: canonical name contained in the analyzer
name; second pass: analyzer name contained in the canonical name or
either-direction alias containment), while `lookup_client_code` of
`mapping_json.py` resolves only through the exact normalized alias index;
in both paths, a pair with no match at any stage yields an "unmapped"
result (`None` / `(None, None)`), never an exception. -/
theorem c4_code_mapper_amended (doc : MappingDoc) (analyzer obx_text : String) :
    (resolve_client_code doc analyzer obx_text = none ↔
      (analyzer = "" ∨ obx_text = "" ∨
        rfSelectAnalyzer doc.analyzers (rfNorm analyzer) = none ∨
        ∃ blk, rfSelectAnalyzer doc.analyzers (rfNorm analyzer) = some blk ∧
          blk.map.find? (fun ti => rfNorm ti.1 == rfNorm obx_text) = none)) ∧
    (dictGet? (build_alias_index doc.analyzers) (mjNorm analyzer) = none →
      lookup_client_code doc analyzer obx_text = (none, none)) := by
  constructor
  · simp only [resolve_client_code]
    by_cases ha : analyzer = ""
    · simp [ha]
    · by_cases hb : obx_text = ""
      · simp [ha, hb]
      · simp only [ha, hb, decide_False, Bool.or_self, Bool.false_eq_true, if_false]
        cases hsel : rfSelectAnalyzer doc.analyzers (rfNorm analyzer) with
        | none => simp [ha, hb, hsel]
        | some blk =>
          cases hfind : blk.map.find? (fun ti => rfNorm ti.1 == rfNorm obx_text) with
          | none =>
            constructor
            · intro _
              exact Or.inr (Or.inr (Or.inr ⟨blk, rfl, hfind⟩))
            · intro _
              simp [hfind]
          | some ti =>
            constructor
            · intro hcontr
              simp [hfind] at hcontr
            · rintro (h | h | h | ⟨blk', hsel', hfind'⟩)
              · exact h.elim
              · exact h.elim
              · exact absurd h (by simp)
              · have hbe : blk = blk' := by injection hsel'
                subst hbe
                rw [hfind] at hfind'
                exact absurd hfind' (by simp)
  · intro hmiss
    simp only [lookup_client_code, hmiss]
    split
    · rfl
    · rfl

/-- Witness for C4's amended theorem: on `exDocC4` with an analyzer name
that matches nothing even by containment, both lookup paths miss. -/
theorem c4_code_mapper_amended_witness :
    (resolve_client_code exDocC4 "ZZZ" "PLCC" = none ↔
      (("ZZZ" : String) = "" ∨ ("PLCC" : String) = "" ∨
        rfSelectAnalyzer exDocC4.analyzers (rfNorm "ZZZ") = none ∨
        ∃ blk, rfSelectAnalyzer exDocC4.analyzers (rfNorm "ZZZ") = some blk ∧
          blk.map.find? (fun ti => rfNorm ti.1 == rfNorm "PLCC") = none)) ∧
    (dictGet? (build_alias_index exDocC4.analyzers) (mjNorm "ZZZ") = none ∧
      lookup_client_code exDocC4 "ZZZ" "PLCC" = (none, none)) :=
  ⟨(c4_code_mapper_amended exDocC4 "ZZZ" "PLCC").1,
   ⟨by decide, (c4_code_mapper_amended exDocC4 "ZZZ" "PLCC").2 (by decide)⟩⟩

theorem sortedHeadBest {α : Type} (r : α → α → Prop) [DecidableRel r] [IsTotal α r]
    [IsTrans α r] (l : List α) (y : α)
    (hy : (l.insertionSort r).head? = some y) : y ∈ l ∧ ∀ x ∈ l, r y x := by
  have hs := List.sorted_insertionSort r l
  cases hsort : l.insertionSort r with
  | nil => rw [hsort] at hy; exact absurd hy (by simp)
  | cons a tl =>
    rw [hsort] at hy hs
    have hya : y = a := by simpa using hy.symm
    subst hya
    constructor
    · exact (List.mem_insertionSort r).mp (by rw [hsort]; exact List.mem_cons_self _ _)
    · intro x hx
      have hx' : x ∈ y :: tl := by
        rw [← hsort]
        exact (List.mem_insertionSort r).mpr hx
      rcases List.mem_cons.mp hx' with h | h
      · subst h
        rcases IsTotal.total (r := r) x x with h | h <;> exact h
      · exact List.rel_of_sorted_cons hs x h

/-- Counterexample to C7: with two exam rows sharing the tube code `T`,
where row id 1 has date 2025-12-31 and row id 2 has date 2020-01-01,
strategy (1) returns row id 2 (`ORDER BY id DESC`), which carries the
strictly older date — so "exact match on sample/tube code taking the most
recent by date" is false on the code. -/
theorem c7_exam_resolver_counterexample :
    find_exam_id_by_keys exDbC7 none none (some "T") none = some 2 ∧
    exDbC7.exams.map (fun r => r.id) = [1, 2] ∧
    exDbC7.exams.map (fun r => r.tubo_muestra) = [some "T", some "T"] ∧
    exDbC7.exams.map (fun r => r.fecha) = [some "2025-12-31", some "2020-01-01"] ∧
    lexLt "2020-01-01".data "2025-12-31".data = true := by
  refine ⟨by decide, by decide, by decide, by decide, by decide⟩

/-- C7 amended: the Exam Resolver tries the three strategies in this fixed
order and returns the first match — (1) exact tube-code match taking the row
with the HIGHEST ID (`ORDER BY id DESC`, not the most recent by date),
(2) patient document + protocol code taking the most recent by
`(fecha, hora, id)` descending, (3) case-insensitive patient name + protocol
code taking the most recent by `(fecha, hora, id)` descending — and when no
strategy matches it returns `None` rather than raising. -/
theorem c7_exam_resolver_amended (db : OrdersDb) (d p t nm : Option String) :
    (∀ r, q1 db t = some r →
      r ∈ tubeMatches db t ∧ ∀ x ∈ tubeMatches db t, x.id ≤ r.id) ∧
    (∀ r, q2 db d p = some r →
      r ∈ docProtoMatches db d p ∧ ∀ x ∈ docProtoMatches db d p, dateKey x ≤ dateKey r) ∧
    (∀ r, q3 db nm p = some r →
      r ∈ nameProtoMatches db nm p ∧ ∀ x ∈ nameProtoMatches db nm p, dateKey x ≤ dateKey r) ∧
    (∀ r, q1 db t = some r → find_exam_id_by_keys db d p t nm = some r.id) ∧
    (q1 db t = none → ∀ r, q2 db d p = some r →
      find_exam_id_by_keys db d p t nm = some r.id) ∧
    (q1 db t = none → q2 db d p = none → ∀ r, q3 db nm p = some r →
      find_exam_id_by_keys db d p t nm = some r.id) ∧
    (q1 db t = none → q2 db d p = none → q3 db nm p = none →
      find_exam_id_by_keys db d p t nm = none) := by
  refine ⟨?_, ?_, ?_, ?_, ?_, ?_, ?_⟩
  · intro r hr
    rw [q1] at hr
    split at hr
    · exact sortedHeadBest examIdDesc (tubeMatches db t) r hr
    · exact absurd hr (by simp)
  · intro r hr
    rw [q2] at hr
    split at hr
    · exact sortedHeadBest examDateDesc (docProtoMatches db d p) r hr
    · exact absurd hr (by simp)
  · intro r hr
    rw [q3] at hr
    split at hr
    · exact sortedHeadBest examDateDesc (nameProtoMatches db nm p) r hr
    · exact absurd hr (by simp)
  · intro r hr
    rw [find_exam_id_by_keys, hr]
  · intro h1 r hr
    rw [find_exam_id_by_keys, h1, hr]
  · intro h1 h2 r hr
    rw [find_exam_id_by_keys, h1, h2, hr]
  · intro h1 h2 h3
    rw [find_exam_id_by_keys, h1, h2, h3]

/-- Witness for C7's amended theorem on `exDbC7`: strategy 1 picks the row
with id 2 (the highest id among the tube matches) and the resolver returns
id 2. -/
theorem c7_exam_resolver_amended_witness :
    q1 exDbC7 (some "T") = some
      { id := 2, paciente_doc := none, protocolo_codigo := none,
        tubo_muestra := some "T", fecha := some "2020-01-01", hora := none } ∧
    (∀ x ∈ tubeMatches exDbC7 (some "T"), x.id ≤ 2) ∧
    find_exam_id_by_keys exDbC7 none none (some "T") none = some 2 := by
  have h := c7_exam_resolver_amended exDbC7 none none (some "T") none
  have hq : q1 exDbC7 (some "T") = some
      { id := 2, paciente_doc := none, protocolo_codigo := none,
        tubo_muestra := some "T", fecha := some "2020-01-01", hora := none } := by decide
  exact ⟨hq, (h.1 _ hq).2, h.2.2.2.1 _ hq⟩

/-- C3: for every collaborator behaviour (including steps that raise) and
every input `obx_record`, `process_obx` returns a structured outcome — with
success flag, resolved exam id / client code / order date, sent count,
error pairs and a log trail — and never propagates an exception: on success
the error list is empty and one analyte was sent; on failure the raised
exception has been converted into exactly one `(error_code, message)`
pair. -/
theorem c3_process_obx_structured_outcome (c : Collaborators) (obx : ObxRecord) :
    ((process_obx c obx).ok = true ∧ (process_obx c obx).errors = [] ∧
      (process_obx c obx).sent_count = 1) ∨
    ((process_obx c obx).ok = false ∧
      ∃ code msg, (process_obx c obx).errors = [(code, msg)]) := by
  unfold process_obx processObxT
  cases hr : resolveContext c obx with
  | error e => exact Or.inr ⟨rfl, (errPair e).1, (errPair e).2, rfl⟩
  | ok ctx =>
    dsimp only
    cases hb : buildXmlStep c ctx obx with
    | error e => exact Or.inr ⟨rfl, (errPair e).1, (errPair e).2, rfl⟩
    | ok xml =>
      dsimp only
      cases hs : sendOneStep c ctx obx xml with
      | error e => exact Or.inr ⟨rfl, (errPair e).1, (errPair e).2, rfl⟩
      | ok _ =>
        dsimp only
        by_cases hu : obx.ultimo_del_examen = true
        · rw [if_pos hu]
          cases hc : closeExamStep c ctx with
          | error e => exact Or.inr ⟨rfl, (errPair e).1, (errPair e).2, rfl⟩
          | ok _ => exact Or.inl ⟨rfl, rfl, rfl⟩
        · rw [if_neg hu]
          exact Or.inl ⟨rfl, rfl, rfl⟩

/-- C10: `process_obx` calls the API client's `send_result` at most once;
`sent_count` is 0 or 1; `ok = true` implies one analyte sent and an empty
error list; and whenever context resolution fails (missing analyzer, text
or tube, unmapped analyte, no matching exam, missing order date, or a
repository exception) no `send_result` call is made and `sent_count` is
0. -/
theorem c10_process_obx_send_invariants (c : Collaborators) (obx : ObxRecord) :
    (processObxT c obx).2.send ≤ 1 ∧
    (processObxT c obx).1.sent_count ≤ 1 ∧
    ((processObxT c obx).1.ok = true →
      (processObxT c obx).1.sent_count = 1 ∧ (processObxT c obx).1.errors = []) ∧
    (∀ e, resolveContext c obx = Except.error e →
      (processObxT c obx).1.sent_count = 0 ∧ (processObxT c obx).2.send = 0) := by
  unfold processObxT
  cases hr : resolveContext c obx with
  | error e =>
    refine ⟨by simp, by simp [failOutcome], ?_, ?_⟩
    · intro hok
      simp [failOutcome] at hok
    · intro e' _
      exact ⟨rfl, rfl⟩
  | ok ctx =>
    dsimp only
    cases hb : buildXmlStep c ctx obx with
    | error e =>
      refine ⟨by simp, by simp [failOutcome], ?_, fun e' he' => Except.noConfusion he'⟩
      intro hok
      simp [failOutcome] at hok
    | ok xml =>
      dsimp only
      cases hs : sendOneStep c ctx obx xml with
      | error e =>
        refine ⟨by simp, by simp [failOutcome], ?_, fun e' he' => Except.noConfusion he'⟩
        intro hok
        simp [failOutcome] at hok
      | ok _ =>
        dsimp only
        by_cases hu : obx.ultimo_del_examen = true
        · rw [if_pos hu]
          cases hc : closeExamStep c ctx with
          | error e =>
            exact ⟨by simp, by simp [failOutcome], fun hok => by simp [failOutcome] at hok,
              fun e' he' => Except.noConfusion he'⟩
          | ok _ =>
            exact ⟨by simp, by simp, fun _ => ⟨rfl, rfl⟩,
              fun e' he' => Except.noConfusion he'⟩
        · rw [if_neg hu]
          exact ⟨by simp, by simp, fun _ => ⟨rfl, rfl⟩,
            fun e' he' => Except.noConfusion he'⟩

/-- Witness for C10 at a concrete input: an empty `obx_record` fails
context resolution (missing analyzer), so no send call is made. -/
theorem c10_process_obx_send_invariants_witness :
    resolveContext cOk {} =
      Except.error (PyErr.flow ErrorCode.MAPPING_NOT_FOUND "Falta 'analyzer' en OBX.") ∧
    (processObxT cOk {}).1.sent_count = 0 ∧ (processObxT cOk {}).2.send = 0 :=
  ⟨by rfl,
   ((c10_process_obx_send_invariants cOk {}).2.2.2
      (PyErr.flow ErrorCode.MAPPING_NOT_FOUND "Falta 'analyzer' en OBX.")
      (by rfl)).1,
   ((c10_process_obx_send_invariants cOk {}).2.2.2
      (PyErr.flow ErrorCode.MAPPING_NOT_FOUND "Falta 'analyzer' en OBX.")
      (by rfl)).2⟩

/-- Counterexample to C1: a row whose `export_status` is `ERROR` — which is
outside the claimed terminal set `{SENT, SKIPPED}` — is NOT selected by the
pending-row query (`_select_pending_obx` also excludes `'ERROR'`), so
"picks the row if and only if its export_status is outside {SENT, SKIPPED}"
is false on the code. -/
theorem c1_selection_counterexample :
    selectPendingObx exDbC1 10 = [] ∧
    exDbC1.hl7_obx_results.map (fun o => o.export_status) = [some "ERROR"] ∧
    ("ERROR" : String) ∉ (["SENT", "SKIPPED"] : List String) :=
  ⟨by decide, by decide, by decide⟩

/-- C1 amended: the pending-row selection picks a row if and only if its
`export_status` is outside the terminal set `{SENT, SKIPPED, ERROR}` (so
`MAPPING_NOT_FOUND`, `PENDING`, empty and NULL statuses are retried, while
`ERROR` is terminal like `SENT` and `SKIPPED`), ordered by row id ascending
and limited to the batch size. -/
theorem c1_selection_amended (db : DispatchDb) (limit : Nat) :
    (∀ pr ∈ selectPendingObx db limit, ∃ row ∈ db.hl7_obx_results,
      row.id = pr.1 ∧ row.result_id = pr.2 ∧ pendingStatus row.export_status = true) ∧
    (∀ row ∈ db.hl7_obx_results, pendingStatus row.export_status = true →
      (row.id, row.result_id) ∈ selectPendingObx db db.hl7_obx_results.length) ∧
    (selectPendingObx db limit).length ≤ limit ∧
    List.Sorted (fun p q : Nat × Nat => p.1 ≤ q.1) (selectPendingObx db limit) ∧
    pendingStatus none = true ∧
    pendingStatus (some "") = true ∧
    pendingStatus (some "PENDING") = true ∧
    pendingStatus (some "MAPPING_NOT_FOUND") = true ∧
    pendingStatus (some "ERROR") = false ∧
    pendingStatus (some "SENT") = false ∧
    pendingStatus (some "SKIPPED") = false := by
  refine ⟨?_, ?_, ?_, ?_, by decide, by decide, by decide, by decide, by decide,
    by decide, by decide⟩
  · intro pr hpr
    rcases List.mem_map.mp hpr with ⟨o, ho, heq⟩
    have ho2 := List.mem_of_mem_take ho
    have ho3 := (List.mem_insertionSort obxIdAsc).mp ho2
    rcases List.mem_filter.mp ho3 with ⟨hin, hpend⟩
    exact ⟨o, hin, by rw [← heq], by rw [← heq], hpend⟩
  · intro row hrow hpend
    have hf : row ∈ db.hl7_obx_results.filter (fun o => pendingStatus o.export_status) :=
      List.mem_filter.mpr ⟨hrow, hpend⟩
    have hs : row ∈ (db.hl7_obx_results.filter
        (fun o => pendingStatus o.export_status)).insertionSort obxIdAsc :=
      (List.mem_insertionSort obxIdAsc).mpr hf
    have hlen : ((db.hl7_obx_results.filter
        (fun o => pendingStatus o.export_status)).insertionSort obxIdAsc).length ≤
        db.hl7_obx_results.length := by
      rw [(List.perm_insertionSort obxIdAsc _).length_eq]
      exact List.length_filter_le _ _
    rw [selectPendingObx, List.take_of_length_le hlen]
    exact List.mem_map.mpr ⟨row, hs, rfl⟩
  · rw [selectPendingObx, List.length_map]
    exact List.length_take_le _ _
  · rw [selectPendingObx]
    refine List.Pairwise.map _ (fun a b hab => ?_)
      (List.Pairwise.take (List.sorted_insertionSort obxIdAsc _))
    exact hab

/-- Witness for C1's amended theorem on `exDbC2` (one NULL-status row):
the row is selected with full batch, and the selection on `exDbC1` (one
ERROR row) is empty with length within the limit. -/
theorem c1_selection_amended_witness :
    ({ id := 1, result_id := 1, code := some "WBC", text := some "WBC",
       value := some "8.5", units := some "u", ref_range := some "",
       export_status := none, export_error := none, export_path := none,
       exported_at := none, export_attempts := 0 } : ObxDbRow)
      ∈ exDbC2.hl7_obx_results ∧
    pendingStatus none = true ∧
    (1, 1) ∈ selectPendingObx exDbC2 exDbC2.hl7_obx_results.length ∧
    (selectPendingObx exDbC1 10).length ≤ 10 :=
  ⟨by decide, by decide,
   (c1_selection_amended exDbC2 10).2.1
     { id := 1, result_id := 1, code := some "WBC", text := some "WBC",
       value := some "8.5", units := some "u", ref_range := some "",
       export_status := none, export_error := none, export_path := none,
       exported_at := none, export_attempts := 0 } (by decide) (by decide),
   (c1_selection_amended exDbC1 10).2.2.1⟩

theorem buildObxRecord_ultimo (db : DispatchDb) (rid oid : Nat) (now : String)
    (rec : ObxRecord) (h : buildObxRecordFromDb db rid oid now = .ok rec) :
    rec.ultimo_del_examen = false := by
  unfold buildObxRecordFromDb at h
  rcases hh : db.hl7_results.find? (fun hd => hd.id == rid) with _ | header
  · rw [hh] at h
    exact Except.noConfusion h
  · rw [hh] at h
    rcases ho : db.hl7_obx_results.find? (fun o => o.id == oid) with _ | obx
    · rw [ho] at h
      exact Except.noConfusion h
    · rw [ho] at h
      injection h with he
      rw [← he]

theorem processObxT_close_zero (c : Collaborators) (rec : ObxRecord)
    (h : rec.ultimo_del_examen = false) : (processObxT c rec).2.close = 0 := by
  unfold processObxT
  cases resolveContext c rec with
  | error e => rfl
  | ok ctx =>
    dsimp only
    cases buildXmlStep c ctx rec with
    | error e => rfl
    | ok xml =>
      dsimp only
      cases sendOneStep c ctx rec xml with
      | error e => rfl
      | ok _ =>
        dsimp only
        rw [if_neg (by rw [h]; exact Bool.false_ne_true)]

theorem dispatchRow_closeCalls (c : Collaborators) (now : String) (acc : DAcc)
    (rid oid : Nat) :
    (dispatchRow c now acc rid oid).closeCalls = acc.closeCalls := by
  unfold dispatchRow
  cases hb : buildObxRecordFromDb acc.db rid oid now with
  | error m => rfl
  | ok rec =>
    have hz := processObxT_close_zero c rec (buildObxRecord_ultimo _ _ _ _ _ hb)
    dsimp only
    split
    · simp [hz]
    · split
      · simp [hz]
      · simp [hz]

theorem foldlRow_closeCalls (c : Collaborators) (now : String) (rid : Nat)
    (oids : List Nat) (a : DAcc) :
    (oids.foldl (fun a2 oid => dispatchRow c now a2 rid oid) a).closeCalls
      = a.closeCalls := by
  induction oids generalizing a with
  | nil => rfl
  | cons o os ih => rw [List.foldl_cons, ih, dispatchRow_closeCalls]

theorem foldlGroups_closeCalls (c : Collaborators) (now : String)
    (gs : List (Nat × List Nat)) (a : DAcc) :
    (gs.foldl (fun a1 g => g.2.foldl (fun a2 oid => dispatchRow c now a2 g.1 oid) a1)
      a).closeCalls = a.closeCalls := by
  induction gs generalizing a with
  | nil => rfl
  | cons g gs' ih => rw [List.foldl_cons, ih, foldlRow_closeCalls]

/-- Counterexample to C2: on a store with one pending analyte whose send
succeeds, the cycle reports one sent row and marks it `SENT`, yet issues
ZERO exam-close calls — the claimed close-on-first-success never happens,
because `_build_obx_record_from_db` hardcodes `ultimo_del_examen = False`
for every record. -/
theorem c2_close_policy_counterexample :
    (dispatch_cycle cOk exDbC2 10 "now").sent = 1 ∧
    (dispatch_cycle cOk exDbC2 10 "now").closeCalls = 0 ∧
    (dispatch_cycle cOk exDbC2 10 "now").db.hl7_obx_results.map
      (fun o => o.export_status) = [some "SENT"] :=
  ⟨by decide, by decide, by decide⟩

/-- C2 amended: the Dispatch Cycle driver never triggers an exam-close
call: every record built by `_build_obx_record_from_db` carries
`ultimo_del_examen = False`, so `process_obx` never reaches `_close_exam`
and the cycle's exam-close call count is zero for every store, batch size
and collaborator behaviour; consequently no close failure can occur in the
driver, and a successfully sent row's `SENT` status is never affected by
closing. -/
theorem c2_dispatch_never_closes (c : Collaborators) (db : DispatchDb)
    (n : Nat) (now : String) :
    (∀ rid oid rec, buildObxRecordFromDb db rid oid now = .ok rec →
      rec.ultimo_del_examen = false) ∧
    (dispatch_cycle c db n now).closeCalls = 0 := by
  constructor
  · intro rid oid rec h
    exact buildObxRecord_ultimo db rid oid now rec h
  · unfold dispatch_cycle
    by_cases hp : (selectPendingObx db n).isEmpty
    · rw [if_pos hp]
    · rw [if_neg hp]
      dsimp only
      rw [foldlGroups_closeCalls]

/-- Witness for C2's amended theorem at a concrete store: the record built
for row 1 has the close flag off, and the cycle issues no close call. -/
theorem c2_dispatch_never_closes_witness :
    buildObxRecordFromDb exDbC2 1 1 "now" = .ok
      { analyzer := some "A", code := some "WBC", text := some "WBC",
        value_text := none, tubo_muestra := some "T", barcode := none,
        paciente_id := none, value := some "8.5", unit := some "u",
        ref_range := some "", timestamp := some "now",
        ultimo_del_examen := false } ∧
    ({ analyzer := some "A", code := some "WBC", text := some "WBC",
       value_text := none, tubo_muestra := some "T", barcode := none,
       paciente_id := none, value := some "8.5", unit := some "u",
       ref_range := some "", timestamp := some "now",
       ultimo_del_examen := false } : ObxRecord).ultimo_del_examen = false ∧
    (dispatch_cycle cOk exDbC2 10 "now").closeCalls = 0 :=
  ⟨by rfl,
   (c2_dispatch_never_closes cOk exDbC2 10 "now").1 1 1 _ (by rfl),
   (c2_dispatch_never_closes cOk exDbC2 10 "now").2⟩

theorem updateObxRow_status (db : DispatchDb) (oid : Nat) (f : ObxDbRow → ObxDbRow)
    (st : Option String) (hstat : ∀ o, (f o).export_status = st) :
    ∀ row ∈ (updateObxRow db oid f).hl7_obx_results, row.id = oid →
      row.export_status = st := by
  intro row hrow hid
  unfold updateObxRow at hrow
  dsimp only at hrow
  rcases List.mem_map.mp hrow with ⟨o, ho, heq⟩
  by_cases h : (o.id == oid) = true
  · rw [if_pos h] at heq
    rw [← heq]
    exact hstat o
  · rw [if_neg h] at heq
    subst heq
    exact absurd (beq_iff_eq.mpr hid) h

/-- C5 (with `mark_obx_mapping_not_found` modelled from the spec): for
every analyte row the Dispatch Cycle processes, a send attempt that fails
with a `MAPPING_NOT_FOUND` error code marks the row's `export_status`
`MAPPING_NOT_FOUND` — a value distinct from the generic `ERROR` — while
every other failure (any other error outcome, and an exception while
building the record) marks `ERROR`, and a success marks `SENT`. -/
theorem c5_failure_classification (c : Collaborators) (now : String)
    (acc : DAcc) (rid oid : Nat) :
    (∀ m, buildObxRecordFromDb acc.db rid oid now = .error m →
      ∀ row ∈ (dispatchRow c now acc rid oid).db.hl7_obx_results,
        row.id = oid → row.export_status = some "ERROR") ∧
    (∀ rec, buildObxRecordFromDb acc.db rid oid now = .ok rec →
      ((processObxT c rec).1.ok = true →
        ∀ row ∈ (dispatchRow c now acc rid oid).db.hl7_obx_results,
          row.id = oid → row.export_status = some "SENT") ∧
      ((processObxT c rec).1.ok = false →
        (processObxT c rec).1.errors.any
          (fun e => e.1 == ErrorCode.MAPPING_NOT_FOUND) = true →
        ∀ row ∈ (dispatchRow c now acc rid oid).db.hl7_obx_results,
          row.id = oid → row.export_status = some "MAPPING_NOT_FOUND") ∧
      ((processObxT c rec).1.ok = false →
        (processObxT c rec).1.errors.any
          (fun e => e.1 == ErrorCode.MAPPING_NOT_FOUND) = false →
        ∀ row ∈ (dispatchRow c now acc rid oid).db.hl7_obx_results,
          row.id = oid → row.export_status = some "ERROR")) := by
  constructor
  · intro m hm
    unfold dispatchRow
    rw [hm]
    exact updateObxRow_status _ _ _ _ (fun o => rfl)
  · intro rec hrec
    refine ⟨?_, ?_, ?_⟩
    · intro hok
      unfold dispatchRow
      rw [hrec]
      dsimp only
      rw [if_pos hok]
      exact updateObxRow_status _ _ _ _ (fun o => rfl)
    · intro hok hany
      unfold dispatchRow
      rw [hrec]
      dsimp only
      rw [if_neg (by rw [hok]; exact Bool.false_ne_true), if_pos hany]
      exact updateObxRow_status _ _ _ _ (fun o => rfl)
    · intro hok hany
      unfold dispatchRow
      rw [hrec]
      dsimp only
      rw [if_neg (by rw [hok]; exact Bool.false_ne_true),
        if_neg (by rw [hany]; exact Bool.false_ne_true)]
      exact updateObxRow_status _ _ _ _ (fun o => rfl)

/-- Witness for C5 at a concrete store: with a mapping repo that finds no
client code, the processed row ends with `export_status =
MAPPING_NOT_FOUND` (and the concrete cycle run shows it, distinct from
`ERROR`). -/
theorem c5_failure_classification_witness :
    buildObxRecordFromDb accC5.db 1 1 "now" = .ok
      { analyzer := some "A", code := some "WBC", text := some "WBC",
        value_text := none, tubo_muestra := some "T", barcode := none,
        paciente_id := none, value := some "8.5", unit := some "u",
        ref_range := some "", timestamp := some "now",
        ultimo_del_examen := false } ∧
    (∀ row ∈ (dispatchRow cMnf "now" accC5 1 1).db.hl7_obx_results,
      row.id = 1 → row.export_status = some "MAPPING_NOT_FOUND") ∧
    (dispatch_cycle cMnf exDbC2 10 "now").db.hl7_obx_results.map
      (fun o => o.export_status) = [some "MAPPING_NOT_FOUND"] :=
  ⟨by rfl,
   ((c5_failure_classification cMnf "now" accC5 1 1).2
      { analyzer := some "A", code := some "WBC", text := some "WBC",
        value_text := none, tubo_muestra := some "T", barcode := none,
        paciente_id := none, value := some "8.5", unit := some "u",
        ref_range := some "", timestamp := some "now",
        ultimo_del_examen := false } (by rfl)).2.1 (by decide) (by decide),
   by decide⟩

/-- C9: a successful ingestion of a message with K OBX segments persists
exactly one `hl7_results` header row (with a fresh id) plus exactly K
`hl7_obx_results` rows, each referencing that header; re-ingesting the
identical bytes appends a second independent header with its own K rows (no
deduplication); and an exception at any insert step before the single
commit aborts the whole file with nothing persisted (no partial
header-without-analytes). -/
theorem c9_ingest_round_trip (db : IngDb) (data : IngData) (spec : ObxSpec)
    (tU : Bool) (ew : Option String) (msg : String) (obxs : List ParsedObx)
    (k : Nat) (hobxs : obxs = parse_obx_list spec tU ew msg) :
    (save_result_record db data obxs).hl7_results =
      db.hl7_results ++ [(db.next_result_id, blindaje data)] ∧
    (save_result_record db data obxs).hl7_obx_results.length =
      db.hl7_obx_results.length + ((split_segments msg).filter isObxSeg).length ∧
    (∀ r ∈ (save_result_record db data obxs).hl7_obx_results,
      r ∈ db.hl7_obx_results ∨ r.result_id = db.next_result_id) ∧
    (save_result_record (save_result_record db data obxs) data obxs).hl7_results =
      db.hl7_results ++ [(db.next_result_id, blindaje data),
        (db.next_result_id + 1, blindaje data)] ∧
    (save_result_record (save_result_record db data obxs) data
        obxs).hl7_obx_results.length =
      db.hl7_obx_results.length + 2 * ((split_segments msg).filter isObxSeg).length ∧
    (k ≤ obxs.length →
      save_result_record_tx db data obxs (some k) = .error "sqlite3.Error") := by
  have hlen : obxs.length = ((split_segments msg).filter isObxSeg).length := by
    rw [hobxs, parse_obx_list, List.length_map]
  refine ⟨rfl, ?_, ?_, ?_, ?_, ?_⟩
  · unfold save_result_record
    dsimp only
    rw [List.length_append, List.length_map, List.enum_length, hlen]
  · intro r hr
    unfold save_result_record at hr
    dsimp only at hr
    rcases List.mem_append.mp hr with h | h
    · exact Or.inl h
    · rcases List.mem_map.mp h with ⟨p, _, heq⟩
      exact Or.inr (by rw [← heq]; rfl)
  · unfold save_result_record
    dsimp only
    rw [List.append_assoc]
    rfl
  · unfold save_result_record
    dsimp only
    simp only [List.length_append, List.length_map, List.enum_length]
    omega
  · intro hk
    rw [save_result_record_tx, if_pos hk]

/-- Witness for C9 on a concrete message with two OBX segments and an empty
database: one header plus two analyte rows; re-ingestion doubles them; a
failure at the header insert (step 0) persists nothing. -/
theorem c9_ingest_round_trip_witness :
    ((split_segments msgC9).filter isObxSeg).length = 2 ∧
    (save_result_record ingDb0 {} (parse_obx_list {} false none msgC9)).hl7_results =
      [(1, blindaje {})] ∧
    (save_result_record ingDb0 {} (parse_obx_list {} false none
        msgC9)).hl7_obx_results.length = 2 ∧
    (save_result_record (save_result_record ingDb0 {}
        (parse_obx_list {} false none msgC9)) {}
        (parse_obx_list {} false none msgC9)).hl7_results =
      [(1, blindaje {}), (2, blindaje {})] ∧
    (0 : Nat) ≤ (parse_obx_list {} false none msgC9).length ∧
    save_result_record_tx ingDb0 {} (parse_obx_list {} false none msgC9) (some 0) =
      .error "sqlite3.Error" := by
  have h := c9_ingest_round_trip ingDb0 {} {} false none msgC9
    (parse_obx_list {} false none msgC9) 0 rfl
  refine ⟨by decide, ?_, ?_, ?_, by decide, h.2.2.2.2.2 (by decide)⟩
  · rw [h.1]
    rfl
  · rw [h.2.1]
    decide
  · rw [h.2.2.2.1]
    rfl
